import Mathlib

/-!
Shallow embedding of the rustdoc implementors data file
`docs/master/implementors/core/ops/trait.ShrAssign.js` of the
`rust-fasthash` documentation site, together with the registration
protocol between such data files and the core registrar.

The data file builds an `implementors` object with a single key
`"fasthash"` holding twenty pre-rendered descriptor strings and then
dispatches on the global registrar handle:

  if (window.register_implementors) then call it with the object,
  else store the object in window.pending_implementors.

The core registrar script itself is not among the sources; its install
and acceptance behaviour is modelled from the specification and marked
as such in the doc comments below.
-/

namespace ShrAssignJs

/-- A pre-rendered implementor descriptor fragment (an opaque string). -/
abbrev Descriptor := String

/-- A payload: a mapping from library identifier to an ordered sequence of
descriptors, represented as an association list so that key order and
descriptor order are both preserved exactly as supplied. -/
abbrev Payload := List (String × List Descriptor)

/-- The registrar's running display model, keyed by library identifier. -/
abbrev DisplayModel := String → Option (List Descriptor)

/-- Contents of the global slot `window.register_implementors`: absent
(the property is `undefined`), present but holding a falsy value
(for example `null`, `0` or `false`), or holding the registrar function
installed by the site script. -/
inductive RegSlot where
  | absent : RegSlot
  | falsy : RegSlot
  | present : RegSlot
deriving DecidableEq

/-- JavaScript truthiness of the registrar slot, the test performed by
the condition `if (window.register_implementors)`. -/
def RegSlot.truthy : RegSlot → Bool
  | RegSlot.present => true
  | _ => false

/-- The process-wide globals used by the protocol: the registrar handle
`window.register_implementors`, the one-slot buffer
`window.pending_implementors`, and the registrar's display model. -/
structure WindowState where
  reg : RegSlot
  pending : Option Payload
  model : DisplayModel

/-- Modelled from the spec: the registrar acceptance operation, which is
not among the sources. It merges the payload's entries into the display
model keyed by library identifier, last-write-wins per key. -/
def acceptPayload (m : DisplayModel) (p : Payload) : DisplayModel :=
  p.foldl (fun acc e => fun k => if k = e.1 then some e.2 else acc k) m

/-- The dispatch of the data file, source lines 4 to 8: when the
registrar handle is truthy, hand the payload to the acceptance operation
synchronously; otherwise overwrite the pending buffer with the payload.
The second component lists the payloads handed to the acceptance
operation during the step. -/
def publishStep (p : Payload) (s : WindowState) : WindowState × List Payload :=
  if s.reg.truthy then
    ({ s with model := acceptPayload s.model p }, [p])
  else
    ({ s with pending := some p }, [])

/-- Modelled from the spec: installation of the core registrar, which is
not among the sources. It sets the handle, and when the pending buffer is
non-empty it processes the staged payload as if just published and clears
the buffer; with an empty buffer it is a no-op apart from the handle. -/
def installStep (s : WindowState) : WindowState × List Payload :=
  match s.pending with
  | some p =>
    ({ reg := RegSlot.present, pending := none, model := acceptPayload s.model p }, [p])
  | none => ({ s with reg := RegSlot.present }, [])

/-- State effect of a publish. -/
def publish (p : Payload) (s : WindowState) : WindowState :=
  (publishStep p s).1

/-- State effect of installing the registrar. -/
def install (s : WindowState) : WindowState :=
  (installStep s).1

/-- Script-execution events on the page: a data file publishing its
payload, or the site script installing the core registrar. -/
inductive Ev where
  | publish : Payload → Ev
  | install : Ev

/-- One step of the protocol for an event. -/
def stepEv (s : WindowState) : Ev → WindowState × List Payload
  | Ev.publish p => publishStep p s
  | Ev.install => installStep s

/-- Run a sequence of events from a state, collecting every payload
handed to the registrar acceptance operation along the way. -/
def runTrace : WindowState → List Ev → WindowState × List Payload
  | s, [] => (s, [])
  | s, e :: es =>
    let r := stepEv s e
    let r2 := runTrace r.1 es
    (r2.1, r.2 ++ r2.2)

/-- The last binding of key `k` in an association list, the binding that
last-write-wins semantics keeps. -/
def lookupKey (k : String) : List (String × List Descriptor) → Option (List Descriptor)
  | [] => none
  | e :: rest =>
    match lookupKey k rest with
    | some v => some v
    | none => if e.1 = k then some e.2 else none

/-- A single-quote character, used inside the generated HTML fragments. -/
def q : String := (Char.ofNat 39).toString

/-- One implementor descriptor string of the source file: the
pre-rendered fragment for `impl ShrAssign<rhs> for ty`. -/
def descr (rhs ty : String) : Descriptor :=
  "impl <a class=" ++ q ++ "trait" ++ q ++
  " href=" ++ q ++ "https://doc.rust-lang.org/nightly/core/ops/trait.ShrAssign.html" ++ q ++
  " title=" ++ q ++ "core::ops::ShrAssign" ++ q ++
  ">ShrAssign</a>&lt;<a class=" ++ q ++ "primitive" ++ q ++
  " href=" ++ q ++ "https://doc.rust-lang.org/nightly/std/primitive." ++ rhs ++ ".html" ++ q ++
  ">" ++ rhs ++ "</a>&gt; for " ++ ty

/-- The ten right-hand-side primitive type names, in source order. -/
def rhsNames : List String :=
  ["u8", "u16", "u32", "u64", "usize", "i8", "i16", "i32", "i64", "isize"]

/-- The `implementors` object built by the data file, source lines 1 to
2: one entry for key "fasthash" holding the twenty descriptor strings in
source order (the ten `u128` impls followed by the ten `i128` impls). -/
def implementors : Payload :=
  [("fasthash",
    [descr "u8" "u128", descr "u16" "u128", descr "u32" "u128", descr "u64" "u128",
     descr "usize" "u128", descr "i8" "u128", descr "i16" "u128", descr "i32" "u128",
     descr "i64" "u128", descr "isize" "u128",
     descr "u8" "i128", descr "u16" "i128", descr "u32" "i128", descr "u64" "i128",
     descr "usize" "i128", descr "i8" "i128", descr "i16" "i128", descr "i32" "i128",
     descr "i64" "i128", descr "isize" "i128"])]

/-- The payload construction of the data file reads no global state. -/
def buildPayload (_ : WindowState) : Payload := implementors

/-- Executing the whole data file: build the payload, then publish it. -/
def runPublisher (s : WindowState) : WindowState :=
  publish (buildPayload s) s

/-- The empty display model. -/
def emptyModel : DisplayModel := fun _ => none

/-- A page state before any script has run. -/
def s0 : WindowState := { reg := RegSlot.absent, pending := none, model := emptyModel }

/-- A page state with the registrar installed and nothing staged. -/
def sReady : WindowState := { reg := RegSlot.present, pending := none, model := emptyModel }

/-- A page state where the handle global exists but holds a falsy value. -/
def sFalsy : WindowState := { reg := RegSlot.falsy, pending := none, model := emptyModel }

/-- A page state with a payload already staged in the pending buffer. -/
def sStaged : WindowState :=
  { reg := RegSlot.absent, pending := some [("libB", ["z"])], model := emptyModel }

/-- A small concrete payload. -/
def pA : Payload := [("libA", ["x", "y"])]

/-- Another small concrete payload, with a different key. -/
def pB : Payload := [("libB", ["z"])]

/-- Looking up a key in the model after accepting a payload returns the
payload's last binding for that key, and falls back to the previous model
for keys the payload does not bind. -/
theorem acceptPayload_apply (m : DisplayModel) (p : Payload) (k : String) :
    acceptPayload m p k =
      match lookupKey k p with
      | some v => some v
      | none => m k := by
  induction p generalizing m with
  | nil => rfl
  | cons e rest ih =>
    have hstep : acceptPayload m (e :: rest) k
        = acceptPayload (fun k2 => if k2 = e.1 then some e.2 else m k2) rest k := rfl
    have hcons : lookupKey k (e :: rest)
        = match lookupKey k rest with
          | some v => some v
          | none => if e.1 = k then some e.2 else none := rfl
    rw [hstep, ih, hcons]
    cases hrest : lookupKey k rest with
    | some v => rfl
    | none =>
      by_cases hk : e.1 = k
      · subst hk
        simp
      · have hk2 : ¬k = e.1 := fun h => hk h.symm
        simp [hk, hk2]

/-- C5: the payload is passed through the handoff unchanged: delivered
as-is on the ready path, staged as-is on the uninitialized path, and the
display model returns, for each key the payload binds, exactly the
descriptor sequence the payload supplied for it — never reordered,
sorted, filtered, or otherwise modified. -/
theorem payload_passed_unchanged (p : Payload) (s : WindowState) :
    (s.reg.truthy = true → (publishStep p s).2 = [p]) ∧
    (s.reg.truthy = false → (publish p s).pending = some p) ∧
    (∀ k v, lookupKey k p = some v → acceptPayload s.model p k = some v) := by
  refine ⟨fun h => by simp [publishStep, h], fun h => by simp [publish, publishStep, h], ?_⟩
  intro k v hv
  rw [acceptPayload_apply, hv]

/-- Witness for the C5 theorem at concrete states and a concrete key. -/
theorem payload_passed_unchanged_witness :
    (sReady.reg.truthy = true ∧ (publishStep pA sReady).2 = [pA]) ∧
    (s0.reg.truthy = false ∧ (publish pA s0).pending = some pA) ∧
    (lookupKey "libA" pA = some ["x", "y"] ∧
      acceptPayload s0.model pA "libA" = some ["x", "y"]) :=
  ⟨⟨rfl, (payload_passed_unchanged pA sReady).1 rfl⟩,
   ⟨rfl, (payload_passed_unchanged pA s0).2.1 rfl⟩,
   ⟨rfl, (payload_passed_unchanged pA s0).2.2 "libA" ["x", "y"] rfl⟩⟩

/-- C2: publish and install commute: from an uninitialized state with an
empty pending buffer, publish-then-install and install-then-publish end
in the same state, and from an empty display model that state shows
exactly the payload's entries. -/
theorem publish_install_commute (p : Payload) (s : WindowState)
    (h1 : s.reg.truthy = false) (h2 : s.pending = none) :
    install (publish p s) = publish p (install s) ∧
    (s.model = emptyModel → ∀ k, (install (publish p s)).model k = lookupKey k p) := by
  have hpub : publish p s = { s with pending := some p } := by
    simp [publish, publishStep, h1]
  have hinst1 : install (publish p s)
      = { reg := RegSlot.present, pending := none, model := acceptPayload s.model p } := by
    rw [hpub]; rfl
  have hinst2 : install s = { s with reg := RegSlot.present } := by
    simp [install, installStep, h2]
  have hinst2pub : publish p (install s)
      = { reg := RegSlot.present, pending := s.pending, model := acceptPayload s.model p } := by
    rw [hinst2]; simp [publish, publishStep, RegSlot.truthy]
  constructor
  · rw [hinst1, hinst2pub, h2]
  · intro hm k
    rw [hinst1]
    show acceptPayload s.model p k = lookupKey k p
    rw [acceptPayload_apply, hm]
    cases lookupKey k p
    · rfl
    · rfl

/-- Witness for the C2 theorem at the initial page state. -/
theorem publish_install_commute_witness :
    s0.reg.truthy = false ∧ s0.pending = none ∧
    install (publish pA s0) = publish pA (install s0) ∧
    (install (publish pA s0)).model "libA" = some ["x", "y"] :=
  ⟨rfl, rfl, (publish_install_commute pA s0 rfl rfl).1,
   ((publish_install_commute pA s0 rfl rfl).2 rfl "libA").trans rfl⟩

/-- C1 counterexample: after two publishes of distinct payloads while
uninitialized followed by install, only the second payload is ever
handed to the registrar; the first is silently dropped — it is delivered
zero times and its key is absent from the final display model. -/
theorem two_publishes_drop_first :
    (runTrace s0 [Ev.publish pA, Ev.publish pB, Ev.install]).2 = [pB] ∧
    (runTrace s0 [Ev.publish pA, Ev.publish pB, Ev.install]).2.count pA = 0 ∧
    (runTrace s0 [Ev.publish pA, Ev.publish pB, Ev.install]).1.model "libA" = none := by
  refine ⟨rfl, by decide, by decide⟩

/-- C1 amended: a payload published while the registrar is ready is
delivered exactly once, synchronously; a payload published while
uninitialized is delivered exactly once by the next install provided no
further publish overwrites the one-slot pending buffer first (the
overwritten case loses the earlier payload, as the counterexample
shows). -/
theorem delivery_exactly_once_amended (p : Payload) (s : WindowState) :
    (s.reg.truthy = true → (publishStep p s).2 = [p]) ∧
    (s.reg.truthy = false → (runTrace s [Ev.publish p, Ev.install]).2 = [p]) := by
  constructor
  · intro h
    simp [publishStep, h]
  · intro h
    have h1 : publishStep p s = ({ s with pending := some p }, []) := by
      simp [publishStep, h]
    simp [runTrace, stepEv, h1, installStep]

/-- Witness for the C1 amended theorem, once on a ready state and once
on the initial uninitialized state. -/
theorem delivery_exactly_once_amended_witness :
    (sReady.reg.truthy = true ∧ (publishStep pA sReady).2 = [pA]) ∧
    (s0.reg.truthy = false ∧ (runTrace s0 [Ev.publish pA, Ev.install]).2 = [pA]) :=
  ⟨⟨rfl, (delivery_exactly_once_amended pA sReady).1 rfl⟩,
   ⟨rfl, (delivery_exactly_once_amended pA s0).2 rfl⟩⟩

/-- C3: Ready-path publish: when the registrar handle is present and
truthy, publish hands the payload to the registrar acceptance operation
immediately and synchronously, exactly once, and writes nothing to the
pending buffer. -/
theorem ready_path_publish (p : Payload) (s : WindowState)
    (h : s.reg.truthy = true) :
    publishStep p s = ({ s with model := acceptPayload s.model p }, [p]) ∧
    (publish p s).pending = s.pending := by
  constructor
  · simp [publishStep, h]
  · simp [publish, publishStep, h]

/-- Witness for the C3 theorem at a concrete ready state. -/
theorem ready_path_publish_witness :
    sReady.reg.truthy = true ∧ (publish pA sReady).pending = none :=
  ⟨rfl, ((ready_path_publish pA sReady rfl).2).trans rfl⟩

/-- C4: Uninitialized-path publish: when the registrar handle is absent
or falsy, the payload is stored in the pending buffer, replacing any
prior value (last-write-wins, no merge), and the registrar acceptance
operation is not invoked (no payload is delivered in the step). -/
theorem uninitialized_path_publish (p : Payload) (s : WindowState)
    (h : s.reg.truthy = false) :
    publishStep p s = ({ s with pending := some p }, []) := by
  simp [publishStep, h]

/-- Witness for the C4 theorem at a concrete state that already holds a
staged payload, showing the prior value replaced. -/
theorem uninitialized_path_publish_witness :
    sStaged.reg.truthy = false ∧ sStaged.pending = some pB ∧
    publishStep pA sStaged = ({ sStaged with pending := some pA }, []) :=
  ⟨rfl, rfl, uninitialized_path_publish pA sStaged rfl⟩

/-- C6: on every invocation the data file builds a payload with exactly
one entry, key "fasthash", whose value is the ordered sequence of exactly
twenty implementor descriptor strings — the ten ShrAssign impls for u128
followed by the ten for i128, each with the right-hand side in the order
u8, u16, u32, u64, usize, i8, i16, i32, i64, isize — and then publishes
it. -/
theorem publisher_payload_contents :
    implementors =
      [("fasthash",
        rhsNames.map (fun r => descr r "u128") ++ rhsNames.map (fun r => descr r "i128"))] ∧
    rhsNames = ["u8", "u16", "u32", "u64", "usize", "i8", "i16", "i32", "i64", "isize"] ∧
    implementors.map (fun e => e.2.length) = [20] ∧
    ∀ s, runPublisher s = publish implementors s :=
  ⟨rfl, rfl, rfl, fun _ => rfl⟩

/-- C7: publish cannot fail and returns nothing; it always completes by
exactly one of its two paths — deliver to the registrar now, or stage in
the pending buffer. -/
theorem publish_total_two_paths (p : Payload) (s : WindowState) :
    publishStep p s = ({ s with model := acceptPayload s.model p }, [p]) ∨
    publishStep p s = ({ s with pending := some p }, []) := by
  cases h : s.reg.truthy
  · exact Or.inr (by simp [publishStep, h])
  · exact Or.inl (by simp [publishStep, h])

/-- C8: the registrar is invoked exactly when the handle global holds a
truthy value; when the global exists but holds a falsy value the payload
is staged in the pending buffer instead of being delivered. -/
theorem registrar_truthiness_dispatch (p : Payload) (s : WindowState) :
    ((publishStep p s).2 = [p] ↔ s.reg.truthy = true) ∧
    (s.reg = RegSlot.falsy → publishStep p s = ({ s with pending := some p }, [])) := by
  constructor
  · cases h : s.reg.truthy
    · simp [publishStep, h]
    · simp [publishStep, h]
  · intro h
    simp [publishStep, h, RegSlot.truthy]

/-- Witness for the C8 theorem at a concrete state whose handle global
exists but is falsy. -/
theorem registrar_truthiness_dispatch_witness :
    sFalsy.reg = RegSlot.falsy ∧
    publishStep pA sFalsy = ({ sFalsy with pending := some pA }, []) :=
  ⟨rfl, (registrar_truthiness_dispatch pA sFalsy).2 rfl⟩

/-- C9: frame effect of publish: the ready path leaves the pending
buffer and the handle unchanged; the uninitialized path leaves the
handle and the display model unchanged. -/
theorem publish_frame_effect (p : Payload) (s : WindowState) :
    (s.reg.truthy = true →
      (publish p s).pending = s.pending ∧ (publish p s).reg = s.reg) ∧
    (s.reg.truthy = false →
      (publish p s).reg = s.reg ∧ (publish p s).model = s.model) := by
  constructor
  · intro h
    simp [publish, publishStep, h]
  · intro h
    simp [publish, publishStep, h]

/-- Witness for the C9 theorem, once on a ready state and once on an
uninitialized state. -/
theorem publish_frame_effect_witness :
    ((publish pA sReady).pending = sReady.pending ∧ (publish pA sReady).reg = sReady.reg) ∧
    ((publish pA s0).reg = s0.reg ∧ (publish pA s0).model = s0.model) :=
  ⟨(publish_frame_effect pA sReady).1 rfl, (publish_frame_effect pA s0).2 rfl⟩

/-- C10: the payload construction reads no global state, so any two
executions of the data file build equal payloads, and running the file
coincides with publishing the payload as built in any other state. -/
theorem publisher_deterministic (s t : WindowState) :
    buildPayload s = buildPayload t ∧ runPublisher s = publish (buildPayload t) s :=
  ⟨rfl, rfl⟩

end ShrAssignJs
